import Mathlib

/-!
Shallow embedding of `pywattbox` (src/pywattbox/__init__.py): the WattBox
device-state model and synchronization operations, translated from the
Python source.

Modelling conventions:
* Python objects become Lean structures; mutation of `self` becomes explicit
  state passing (each operation takes a `WattBox` and returns the updated one).
* A raised Python exception is modelled by an `Option PyErr` component of the
  result: `some e` means the operation raised `e`; the `WattBox` component is
  the state at the moment the exception propagates (Python mutations performed
  before the raise persist).
* The external XML primitive (`xml.etree.ElementTree.fromstring`) is modelled
  by the `Xml` type: either `malformed` (fromstring raises a parse error) or a
  `doc` holding the element tree's root, itself a list of named elements whose
  text is `Option String` (an element may have no text, as `e.text` may be
  `None` in Python).
* The HTTP transport (`requests.get`) is modelled by an `Except Unit Xml`
  argument: `.error ()` is a `requests.exceptions.ConnectionError`, `.ok x`
  a response whose body parses (or fails to parse) as `x`.
* `mktime(localtime())` results are passed in as an integer `now` argument
  (`mktime` of a `localtime` struct is a whole number of seconds).
* Outbound HTTP requests are counted in a `Nat` component of results.
-/

/-- The Python exceptions the module can raise, by site. -/
inductive PyErr where
  /-- `requests.exceptions.ConnectionError` from `requests.get`. -/
  | connectionError
  /-- `xml.etree.ElementTree.ParseError` from `ET.fromstring` on malformed markup. -/
  | xmlError
  /-- `TypeError`: e.g. `int(None)`, `ET.fromstring(None)`, or `now - None`. -/
  | typeError
  /-- `ValueError` from `int(s)` on non-numeric text. -/
  | valueError
  /-- `AttributeError`: calling `.split` or `.text` on `None`. -/
  | attributeError
  /-- the explicit `raise Exception("Bad outlet_status length ...")` in `_update`. -/
  | lengthError
  /-- `UnboundLocalError`: reading local variable `response` never assigned. -/
  | unboundLocalError
  deriving DecidableEq, Repr

deriving instance DecidableEq for Except

/-- Python values that `self._has_ups` can hold: `None` at start of `__init__`,
`False` at its end, and `_t(root, 'hasUPS')` (a string or `None`) after `parse`. -/
inductive UpsVal where
  | pynone
  | pybool (b : Bool)
  | pystr (s : String)
  deriving DecidableEq, Repr

/-- One `Switch` object (an outlet). The back-reference `_wattbox` is realised
by passing the owning `WattBox` state explicitly to the operations. -/
structure Switch where
  /-- `self._outlet_num`, 1-based. -/
  outlet_num : Nat
  /-- `self._name`, `'{n} [{num}]'`-formatted at construction. -/
  name : String
  /-- `self._on` (read through the `is_on` property). -/
  is_on : Bool
  deriving DecidableEq, Repr

/-- `Switch.__init__(self, wattbox, offset, name, on)` (lines 181-185). -/
def Switch.init (offset : Nat) (name : String) (onVal : Bool) : Switch :=
  { outlet_num := offset + 1
    name := name ++ " [" ++ toString (offset + 1) ++ "]"
    is_on := onVal }

/-- The element tree root: named elements in document order, each with
optional text. -/
abbrev Root : Type := List (String × Option String)

/-- Result of the external XML parsing primitive on a response body. -/
inductive Xml where
  /-- `ET.fromstring` raises on this body. -/
  | malformed
  /-- `ET.fromstring` returns this root. -/
  | doc (root : Root)
  deriving DecidableEq, Repr

/-- `root.find(name)`: first element with the given tag, or `None`.
The outer `Option` is element presence, the inner its text. -/
def findElem (root : Root) (name : String) : Option (Option String) :=
  (root.find? (fun p => p.1 == name)).map Prod.snd

/-- Python `str.split(',')` on the character list: split at every comma;
the empty list yields one empty field, as `''.split(',') == ['']`. -/
def splitCommaChars : List Char → List (List Char)
  | [] => [[]]
  | c :: rest =>
    let r := splitCommaChars rest
    if c = ',' then [] :: r
    else
      match r with
      | [] => [[c]]
      | h :: t => (c :: h) :: t

/-- Python `s.split(',')`. -/
def pySplit (s : String) : List String :=
  (splitCommaChars s.data).map List.asString

/-- A nonempty all-decimal-digit character list read as a `Nat`. -/
def decDigits? : List Char → Option Nat
  | [] => none
  | cs => go 0 cs
where
  go : Nat → List Char → Option Nat
    | n, [] => some n
    | n, c :: rest => if c.isDigit then go (10 * n + (c.toNat - 48)) rest else none

/-- Python `int(s)` on a string: an optional sign followed by decimal digits
(surrounding whitespace and digit-grouping underscores, which CPython also
accepts, are not modelled). `none` means `int` raises `ValueError`. -/
def pyInt? (s : String) : Option Int :=
  match s.data with
  | [] => none
  | c :: rest =>
    if c = '-' then (decDigits? rest).map (fun n => -(n : Int))
    else if c = '+' then (decDigits? rest).map (fun n => (n : Int))
    else (decDigits? (c :: rest)).map (fun n => (n : Int))

/-- `_t(root, name)` (lines 41-46): the element's text or `None`
(also `None` when the element is absent). -/
def tElem (root : Root) (name : String) : Option String :=
  match findElem root name with
  | none => none
  | some txt => txt

/-- `_i(root, name)` (lines 48-53): the element's text as `int(text)/10`, or
`None` when the element is absent; `int` raises `TypeError` on `None` text and
`ValueError` on non-integer text. -/
def iElem (root : Root) (name : String) : Except PyErr (Option ℚ) :=
  match findElem root name with
  | none => .ok none
  | some none => .error .typeError
  | some (some s) =>
    match pyInt? s with
    | none => .error .valueError
    | some v => .ok (some ((v : ℚ) / 10))

/-- The `WattBox` object's attributes (lines 86-104). -/
structure WattBox where
  host : String
  username : String
  password : String
  area : String
  noop_set_state : Bool
  hostname : Option String
  hardware_version : Option String
  serial_number : Option String
  has_ups : UpsVal
  last_updated : Option ℤ
  switches : List Switch
  voltage : Option ℚ
  current : Option ℚ
  power : Option ℚ
  cloud_status : Option Bool
  deriving DecidableEq, Repr

/-- `WattBox.__init__` (lines 86-104): `_has_ups` is assigned `None` and then
`False`, so it ends as `False`. -/
def WattBox.init (host username password area : String) (noop_set_state : Bool) : WattBox :=
  { host := host
    username := username
    password := password
    area := area
    noop_set_state := noop_set_state
    hostname := none
    hardware_version := none
    serial_number := none
    has_ups := .pybool false
    last_updated := none
    switches := []
    voltage := none
    current := none
    power := none
    cloud_status := none }

/-- The `for (i, (name, state)) in enumerate(zip(outlet_names, outlet_status))`
loop body of `parse` (lines 81-82), started at index `i`: one freshly
constructed `Switch` per zipped pair, appended in order. -/
def switchesFrom (i : Nat) : List (String × String) → List Switch
  | [] => []
  | (name, state) :: rest => Switch.init i name (state == "1") :: switchesFrom (i + 1) rest

/-- `WattBox.parse` (lines 64-83). Assignments to `self` made before an
exception is raised persist; the switch-building loop appends to the existing
`self._switches` list. Grouped `let` steps separate the statements that cannot
raise from the fallible ones, preserving the source's statement order. -/
def WattBox.parse (w : WattBox) (xml : Xml) : WattBox × Option PyErr :=
  match xml with
  | .malformed => (w, some .xmlError)
  | .doc root =>
    let w1 : WattBox :=
      { w with
        hostname := tElem root "host_name"
        hardware_version := tElem root "hardware_version"
        serial_number := tElem root "serial_number"
        has_ups :=
          match tElem root "hasUPS" with
          | none => .pynone
          | some s => .pystr s }
    match iElem root "voltage_value" with
    | .error e => (w1, some e)
    | .ok vv =>
      let w2 : WattBox := { w1 with voltage := vv }
      match iElem root "current_value" with
      | .error e => (w2, some e)
      | .ok cv =>
        let w3 : WattBox := { w2 with current := cv }
        match iElem root "power_value" with
        | .error e => (w3, some e)
        | .ok pv =>
          let w4 : WattBox :=
            { w3 with
              power := pv
              cloud_status := some (tElem root "cloud_status" == some "1") }
          match tElem root "outlet_name" with
          | none => (w4, some .attributeError)
          | some ns =>
            let outlet_names := pySplit ns
            match tElem root "outlet_status" with
            | none => (w4, some .attributeError)
            | some ss =>
              let outlet_status := pySplit ss
              ({ w4 with
                  switches := w4.switches ++ switchesFrom 0 (outlet_names.zip outlet_status) },
                none)

/-- `WattBox.load_xml` (lines 106-125). `tr` is the transport result for the
status-endpoint GET: a connection error propagates with no state change;
otherwise the body is parsed, a parse exception propagating together with the
partially mutated state; on success `_last_updated` is set to `now`. -/
def WattBox.load_xml (w : WattBox) (tr : Except Unit Xml) (now : ℤ) : WattBox × Option PyErr :=
  match tr with
  | .error _ => (w, some .connectionError)
  | .ok xml =>
    match WattBox.parse w xml with
    | (w1, some e) => (w1, some e)
    | (w1, none) => ({ w1 with last_updated := some now }, none)

/-- Lines 167-175 of `WattBox._update`: parse `xml_str` (which is still `None`
when the noop branch was taken, making `ET.fromstring` raise `TypeError`),
read `outlet_status`, split it, check its length against the cached switches,
then write each switch's `_on` and set `_last_updated`. -/
def WattBox.updateBody (w : WattBox) (now : ℤ) (xml_str : Option Xml) : WattBox × Option PyErr :=
  match xml_str with
  | none => (w, some .typeError)
  | some .malformed => (w, some .xmlError)
  | some (.doc root) =>
    match findElem root "outlet_status" with
    | none => (w, some .attributeError)
    | some none => (w, some .attributeError)
    | some (some s) =>
      let vals := pySplit s
      if vals.length ≠ w.switches.length then (w, some .lengthError)
      else
        ({ w with
            switches := List.zipWith (fun sw v => { sw with is_on := v == "1" }) w.switches vals
            last_updated := some now },
          none)

/-- `WattBox._update` (lines 152-175). The `Nat` component counts outbound
HTTP requests. With no `xml_str`, the debounce check `now - self._last_updated
< 3` raises `TypeError` when `_last_updated` is still `None`; within the
window it returns silently; otherwise the control endpoint is fetched via
`fetch` (skipped when `_noop_set_state`), and the body — possibly still
`None` — is handled by `WattBox.updateBody`. -/
def WattBox.update (w : WattBox) (now : ℤ) (fetch : Except Unit Xml) (xml_str : Option Xml) :
    WattBox × Nat × Option PyErr :=
  match xml_str with
  | some x =>
    let r := WattBox.updateBody w now (some x)
    (r.1, 0, r.2)
  | none =>
    match w.last_updated with
    | none => (w, 0, some .typeError)
    | some lu =>
      if now - lu < 3 then (w, 0, none)
      else if w.noop_set_state then
        let r := WattBox.updateBody w now none
        (r.1, 0, r.2)
      else
        match fetch with
        | .error _ => (w, 1, some .connectionError)
        | .ok x =>
          let r := WattBox.updateBody w now (some x)
          (r.1, 1, r.2)

/-- `Switch._update` (lines 240-245): delegate to the owning WattBox's
`_update` with the response body, propagating any exception; report whether
this switch's `_on` changed. `idx` is the switch's position in the owner's
`_switches` list (object identity in the heap becomes list position). -/
def Switch.update (w : WattBox) (idx : Nat) (now : ℤ) (body : Xml) :
    (WattBox × Option PyErr) × Bool :=
  let old_on := (w.switches.get? idx).map Switch.is_on
  let r := WattBox.update w now (.error ()) (some body)
  ((r.1, r.2.2), old_on != (r.1.switches.get? idx).map Switch.is_on)

/-- Write field `_on` of the switch object sitting at position `idx` of the
owner's `_switches` list (`self._on = turn_on`). -/
def setOnAt : List Switch → Nat → Bool → List Switch
  | [], _, _ => []
  | sw :: rest, 0, b => { sw with is_on := b } :: rest
  | sw :: rest, n + 1, b => sw :: setOnAt rest n b

/-- `Switch.set_state` (lines 218-238). `send` is the transport result of the
command GET. In the non-noop path a `ConnectionError` is caught, logged and
swallowed by an early `return`; a reconciliation (`Switch._update`) exception
propagates before the `self._on = turn_on` override line. In the noop path no
request is sent, `self._on = turn_on` executes, and then the final
`_LOGGER.debug(..., response.text)` reads the never-assigned local `response`,
raising `UnboundLocalError`. -/
def Switch.set_state (w : WattBox) (idx : Nat) (turn_on : Bool) (send : Except Unit Xml)
    (now : ℤ) : WattBox × Nat × Option PyErr :=
  if w.noop_set_state = false then
    match send with
    | .error _ => (w, 1, none)
    | .ok body =>
      let r := Switch.update w idx now body
      match r.1.2 with
      | some e => (r.1.1, 1, some e)
      | none => ({ r.1.1 with switches := setOnAt r.1.1.switches idx turn_on }, 1, none)
  else
    ({ w with switches := setOnAt w.switches idx turn_on }, 0, some .unboundLocalError)

theorem switchesFrom_length (i : Nat) (ps : List (String × String)) :
    (switchesFrom i ps).length = ps.length := by
  induction ps generalizing i with
  | nil => rfl
  | cons p rest ih => cases p; simp [switchesFrom, ih]

theorem switchesFrom_get? (i j : Nat) (ps : List (String × String)) :
    (switchesFrom i ps).get? j =
      (ps.get? j).map (fun p => Switch.init (i + j) p.1 (p.2 == "1")) := by
  induction ps generalizing i j with
  | nil => simp [switchesFrom]
  | cons p rest ih =>
    cases p with
    | mk name state =>
      cases j with
      | zero => simp [switchesFrom]
      | succ j =>
        simp only [switchesFrom, List.get?_cons_succ, ih (i + 1) j]
        have : i + 1 + j = i + (j + 1) := by omega
        rw [this]

theorem setOnAt_get?_self (l : List Switch) (idx : Nat) (b : Bool) :
    (setOnAt l idx b).get? idx = (l.get? idx).map (fun sw => { sw with is_on := b }) := by
  induction l generalizing idx with
  | nil => simp [setOnAt]
  | cons sw rest ih =>
    cases idx with
    | zero => simp [setOnAt]
    | succ n => simp only [setOnAt, List.get?_cons_succ]; exact ih n

theorem setOnAt_length (l : List Switch) (idx : Nat) (b : Bool) :
    (setOnAt l idx b).length = l.length := by
  induction l generalizing idx with
  | nil => rfl
  | cons sw rest ih => cases idx <;> simp [setOnAt, ih]

/-- Characterisation of a `parse` run in which every fallible step succeeds. -/
theorem parse_doc_ok (w : WattBox) (root : Root) (vv cv pv : Option ℚ) (ns ss : String)
    (h1 : iElem root "voltage_value" = .ok vv)
    (h2 : iElem root "current_value" = .ok cv)
    (h3 : iElem root "power_value" = .ok pv)
    (h4 : tElem root "outlet_name" = some ns)
    (h5 : tElem root "outlet_status" = some ss) :
    WattBox.parse w (Xml.doc root) =
      ({ w with
          hostname := tElem root "host_name"
          hardware_version := tElem root "hardware_version"
          serial_number := tElem root "serial_number"
          has_ups :=
            match tElem root "hasUPS" with
            | none => .pynone
            | some s => .pystr s
          voltage := vv
          current := cv
          power := pv
          cloud_status := some (tElem root "cloud_status" == some "1")
          switches := w.switches ++ switchesFrom 0 ((pySplit ns).zip (pySplit ss)) },
        none) := by
  simp [WattBox.parse, h1, h2, h3, h4, h5]

/-- On any `parse` exception, `_switches` and `_last_updated` keep their
pre-call values (only scalar metadata assignments can precede the raise). -/
theorem parse_error_fields (w : WattBox) (xml : Xml) (w2 : WattBox) (e : PyErr)
    (h : WattBox.parse w xml = (w2, some e)) :
    w2.switches = w.switches ∧ w2.last_updated = w.last_updated := by
  cases xml with
  | malformed =>
    simp only [WattBox.parse, Prod.mk.injEq] at h
    obtain ⟨rfl, -⟩ := h
    exact ⟨rfl, rfl⟩
  | doc root =>
    simp only [WattBox.parse] at h
    repeat' split at h
    all_goals simp only [Prod.mk.injEq] at h
    all_goals first
      | (obtain ⟨rfl, -⟩ := h; exact ⟨rfl, rfl⟩)
      | simp at h

/-- A status document used as concrete input for claim C1. -/
def exRootC1 : Root := [("outlet_name", some "a,b"), ("outlet_status", some "1,0")]

/-- A WattBox that already holds one outlet, used as concrete input for C1. -/
def exBoxC1 : WattBox :=
  { WattBox.init "h" "u" "p" "" false with switches := [Switch.init 0 "old" true] }

/-- C1: the claim states that on a valid status document with N outlets a
successful `parse` leaves the collection consisting of exactly N outlets
regardless of the prior collection. On a box already holding one outlet and a
two-outlet document, `parse` succeeds but leaves 3 outlets, not 2: the prior
outlet is retained, not discarded. -/
theorem C1_counterexample :
    (WattBox.parse exBoxC1 (Xml.doc exRootC1)).2 = none ∧
    ¬ (WattBox.parse exBoxC1 (Xml.doc exRootC1)).1.switches.length = 2 ∧
    (WattBox.parse exBoxC1 (Xml.doc exRootC1)).1.switches.length = 3 := by
  decide

/-- C1 (amended): a successful `parse` *appends* `min N_names N_statuses`
freshly constructed outlets to the existing collection (prior outlets are
retained, not discarded); the appended outlets, in device order, have
`outletIndex = i + 1` counted from the start of the appended batch and `isOn`
equal to whether the corresponding `outlet_status` entry is `"1"`. With an
empty prior collection this yields exactly the originally claimed layout. -/
theorem C1_parse_appends (w : WattBox) (root : Root) (vv cv pv : Option ℚ) (ns ss : String)
    (h1 : iElem root "voltage_value" = .ok vv)
    (h2 : iElem root "current_value" = .ok cv)
    (h3 : iElem root "power_value" = .ok pv)
    (h4 : tElem root "outlet_name" = some ns)
    (h5 : tElem root "outlet_status" = some ss) :
    (WattBox.parse w (Xml.doc root)).2 = none ∧
    (WattBox.parse w (Xml.doc root)).1.switches =
      w.switches ++ switchesFrom 0 ((pySplit ns).zip (pySplit ss)) ∧
    (WattBox.parse w (Xml.doc root)).1.switches.length =
      w.switches.length + min (pySplit ns).length (pySplit ss).length ∧
    (∀ i n s, ((pySplit ns).zip (pySplit ss)).get? i = some (n, s) →
      ∃ sw,
        (WattBox.parse w (Xml.doc root)).1.switches.get? (w.switches.length + i) = some sw ∧
        sw.outlet_num = i + 1 ∧ sw.is_on = (s == "1")) := by
  rw [parse_doc_ok w root vv cv pv ns ss h1 h2 h3 h4 h5]
  refine ⟨rfl, rfl, ?_, ?_⟩
  · simp [switchesFrom_length, List.length_zip]
  · intro i n s hget
    refine ⟨Switch.init (0 + i) n (s == "1"), ?_, by simp [Switch.init], by simp [Switch.init]⟩
    show (w.switches ++ switchesFrom 0 ((pySplit ns).zip (pySplit ss))).get?
        (w.switches.length + i) = _
    rw [List.get?_append_right (Nat.le_add_right _ _), Nat.add_sub_cancel_left,
      switchesFrom_get?, hget]
    rfl

/-- Witness for `C1_parse_appends`: the concrete inputs of `C1_counterexample`
discharge every hypothesis, and the conclusion exhibits the appended batch. -/
theorem C1_parse_appends_witness :
    (iElem exRootC1 "voltage_value" = .ok none ∧
      iElem exRootC1 "current_value" = .ok none ∧
      iElem exRootC1 "power_value" = .ok none ∧
      tElem exRootC1 "outlet_name" = some "a,b" ∧
      tElem exRootC1 "outlet_status" = some "1,0") ∧
    ((WattBox.parse exBoxC1 (Xml.doc exRootC1)).2 = none ∧
      (WattBox.parse exBoxC1 (Xml.doc exRootC1)).1.switches =
        exBoxC1.switches ++ switchesFrom 0 ((pySplit "a,b").zip (pySplit "1,0")) ∧
      (WattBox.parse exBoxC1 (Xml.doc exRootC1)).1.switches.length =
        exBoxC1.switches.length + min (pySplit "a,b").length (pySplit "1,0").length ∧
      (∀ i n s, ((pySplit "a,b").zip (pySplit "1,0")).get? i = some (n, s) →
        ∃ sw,
          (WattBox.parse exBoxC1 (Xml.doc exRootC1)).1.switches.get?
            (exBoxC1.switches.length + i) = some sw ∧
          sw.outlet_num = i + 1 ∧ sw.is_on = (s == "1"))) :=
  ⟨⟨by decide, by decide, by decide, by decide, by decide⟩,
    C1_parse_appends exBoxC1 exRootC1 none none none "a,b" "1,0"
      (by decide) (by decide) (by decide) (by decide) (by decide)⟩

/-- A status document with 1 outlet name but 2 outlet statuses, for C2. -/
def exRootC2 : Root := [("outlet_name", some "a"), ("outlet_status", some "1,0")]

/-- C2: the claim states that a length mismatch between `outlet_name` and
`outlet_status` makes `parse` fail with a protocol error and construct no
partial collection. In fact `zip` silently truncates: with 1 name and 2
statuses, `parse` succeeds (no exception) and builds exactly 1 outlet from
the shorter prefix. -/
theorem C2_counterexample :
    (WattBox.parse (WattBox.init "h" "u" "p" "" false) (Xml.doc exRootC2)).2 = none ∧
    (WattBox.parse (WattBox.init "h" "u" "p" "" false)
      (Xml.doc exRootC2)).1.switches.length = 1 := by
  decide

/-- C2 (amended): `parse` performs no length comparison between the name and
status lists: on mismatched lengths it still succeeds, appending
`min N_names N_statuses` outlets built from the zipped prefix of the two
lists, and leaves the prior outlets in place. (The only length check in the
module is the one in `WattBox._update` against the cached switch count.) -/
theorem C2_mismatch_truncates (w : WattBox) (root : Root) (vv cv pv : Option ℚ) (ns ss : String)
    (h1 : iElem root "voltage_value" = .ok vv)
    (h2 : iElem root "current_value" = .ok cv)
    (h3 : iElem root "power_value" = .ok pv)
    (h4 : tElem root "outlet_name" = some ns)
    (h5 : tElem root "outlet_status" = some ss)
    (hlen : (pySplit ns).length ≠ (pySplit ss).length) :
    (WattBox.parse w (Xml.doc root)).2 = none ∧
    (WattBox.parse w (Xml.doc root)).1.switches.length =
      w.switches.length + min (pySplit ns).length (pySplit ss).length := by
  rw [parse_doc_ok w root vv cv pv ns ss h1 h2 h3 h4 h5]
  exact ⟨rfl, by simp [switchesFrom_length, List.length_zip]⟩

/-- Witness for `C2_mismatch_truncates` at the inputs of `C2_counterexample`:
1 name, 2 statuses, one outlet appended, no exception. -/
theorem C2_mismatch_truncates_witness :
    (iElem exRootC2 "voltage_value" = .ok none ∧
      iElem exRootC2 "current_value" = .ok none ∧
      iElem exRootC2 "power_value" = .ok none ∧
      tElem exRootC2 "outlet_name" = some "a" ∧
      tElem exRootC2 "outlet_status" = some "1,0" ∧
      (pySplit "a").length ≠ (pySplit "1,0").length) ∧
    ((WattBox.parse (WattBox.init "h" "u" "p" "" false) (Xml.doc exRootC2)).2 = none ∧
      (WattBox.parse (WattBox.init "h" "u" "p" "" false)
        (Xml.doc exRootC2)).1.switches.length =
        (WattBox.init "h" "u" "p" "" false).switches.length +
          min (pySplit "a").length (pySplit "1,0").length) :=
  ⟨⟨by decide, by decide, by decide, by decide, by decide, by decide⟩,
    C2_mismatch_truncates (WattBox.init "h" "u" "p" "" false) exRootC2 none none none "a" "1,0"
      (by decide) (by decide) (by decide) (by decide) (by decide) (by decide)⟩

/-- A status document carrying `host_name` but no `outlet_name`, for C3. -/
def exRootC3 : Root := [("host_name", some "H")]

/-- The device state `load_xml` leaves behind on `exRootC3`: the scalar
fields assigned before the failing `.split` call are already overwritten. -/
def exBoxC3After : WattBox :=
  { WattBox.init "h" "u" "p" "" false with
      hostname := some "H"
      has_ups := .pynone
      cloud_status := some false }

/-- C3: the claim states every failing `loadFullStatus` run leaves *every*
device field at its pre-call value. On a document that has `host_name` but
lacks `outlet_name`, the run raises (calling `.split` on `None`) yet
`_hostname` has already been overwritten from `None` to `"H"` — a partial
mutation on a failing run. -/
theorem C3_counterexample :
    WattBox.load_xml (WattBox.init "h" "u" "p" "" false) (.ok (Xml.doc exRootC3)) 7 =
      (exBoxC3After, some .attributeError) ∧
    exBoxC3After.hostname = some "H" ∧
    (WattBox.init "h" "u" "p" "" false).hostname = none := by
  decide

/-- C3 (amended): a failing `load_xml` never touches the outlets collection or
`_last_updated`, and a transport failure or malformed-XML failure leaves the
whole state untouched; but a parse failure at a later field (e.g. a missing
`outlet_name`) leaves the scalar metadata fields assigned before the failing
statement already overwritten. -/
theorem C3_failure_keeps_outlets (w : WattBox) (tr : Except Unit Xml) (now : ℤ)
    (w2 : WattBox) (e : PyErr) (h : WattBox.load_xml w tr now = (w2, some e)) :
    w2.switches = w.switches ∧ w2.last_updated = w.last_updated ∧
    (tr = .error () → w2 = w) ∧ (tr = .ok .malformed → w2 = w) := by
  cases tr with
  | error u =>
    cases u
    simp only [WattBox.load_xml, Prod.mk.injEq] at h
    obtain ⟨rfl, -⟩ := h
    exact ⟨rfl, rfl, fun _ => rfl, fun hc => Except.noConfusion hc⟩
  | ok xml =>
    simp only [WattBox.load_xml] at h
    split at h
    next w1 e1 heq =>
      simp only [Prod.mk.injEq] at h
      obtain ⟨rfl, -⟩ := h
      obtain ⟨hs, hl⟩ := parse_error_fields w xml w1 e1 heq
      refine ⟨hs, hl, fun hc => Except.noConfusion hc, fun hc => ?_⟩
      obtain rfl : xml = .malformed := by injection hc
      simp only [WattBox.parse, Prod.mk.injEq] at heq
      exact heq.1.symm
    next w1 heq =>
      simp only [Prod.mk.injEq] at h
      exact absurd h.2 (by simp)

/-- Witness for `C3_failure_keeps_outlets` at the inputs of
`C3_counterexample`: the failing run keeps `_switches` and `_last_updated`. -/
theorem C3_failure_keeps_outlets_witness :
    (WattBox.load_xml (WattBox.init "h" "u" "p" "" false) (.ok (Xml.doc exRootC3)) 7 =
      (exBoxC3After, some .attributeError)) ∧
    (exBoxC3After.switches = (WattBox.init "h" "u" "p" "" false).switches ∧
      exBoxC3After.last_updated = (WattBox.init "h" "u" "p" "" false).last_updated ∧
      ((.ok (Xml.doc exRootC3) : Except Unit Xml) = .error () →
        exBoxC3After = WattBox.init "h" "u" "p" "" false) ∧
      ((.ok (Xml.doc exRootC3) : Except Unit Xml) = .ok .malformed →
        exBoxC3After = WattBox.init "h" "u" "p" "" false)) :=
  ⟨by decide,
    C3_failure_keeps_outlets (WattBox.init "h" "u" "p" "" false) (.ok (Xml.doc exRootC3)) 7
      exBoxC3After .attributeError (by decide)⟩

/-- C4: on a successful non-noop `set_state` whose reconciliation response
reports a *different* on/off value for this outlet, the final local `isOn`
equals the requested `turn_on`: the caller's intent overrides the
device-reported value, even though the reconciliation first wrote the
device-reported values into all outlets. -/
theorem C4_override (w : WattBox) (idx : Nat) (turn_on : Bool) (root : Root) (s : String)
    (now : ℤ)
    (hnoop : w.noop_set_state = false)
    (hfield : findElem root "outlet_status" = some (some s))
    (hlen : (pySplit s).length = w.switches.length)
    (hidx : idx < w.switches.length)
    (hdiff : ((pySplit s).get? idx).map (fun v => v == "1") ≠ some turn_on) :
    (Switch.set_state w idx turn_on (.ok (Xml.doc root)) now).2.2 = none ∧
    ∃ sw,
      (Switch.set_state w idx turn_on (.ok (Xml.doc root)) now).1.switches.get? idx = some sw ∧
      sw.is_on = turn_on := by
  have hub : WattBox.updateBody w now (some (Xml.doc root)) =
      ({ w with
          switches := List.zipWith (fun sw v => { sw with is_on := v == "1" })
            w.switches (pySplit s)
          last_updated := some now },
        none) := by
    simp [WattBox.updateBody, hfield, hlen]
  have hss : Switch.set_state w idx turn_on (.ok (Xml.doc root)) now =
      ({ w with
          switches := setOnAt
            (List.zipWith (fun sw v => { sw with is_on := v == "1" }) w.switches (pySplit s))
            idx turn_on
          last_updated := some now },
        1, none) := by
    simp [Switch.set_state, hnoop, Switch.update, WattBox.update, hub]
  rw [hss]
  refine ⟨rfl, ?_⟩
  have hzl : (List.zipWith (fun sw v => { sw with is_on := v == "1" })
      w.switches (pySplit s)).length = w.switches.length := by
    rw [List.length_zipWith, hlen, Nat.min_self]
  have hidx2 : idx < (List.zipWith (fun sw v => { sw with is_on := v == "1" })
      w.switches (pySplit s)).length := hzl ▸ hidx
  have hget : (setOnAt
      (List.zipWith (fun sw v => { sw with is_on := v == "1" }) w.switches (pySplit s))
      idx turn_on).get? idx =
      some { (List.zipWith (fun sw v => { sw with is_on := v == "1" })
          w.switches (pySplit s)).get ⟨idx, hidx2⟩ with is_on := turn_on } := by
    rw [setOnAt_get?_self, List.get?_eq_get hidx2]
    rfl
  exact ⟨_, hget, rfl⟩

/-- Concrete owner for C4/C5: one outlet, currently off, non-noop device. -/
def exBoxC4 : WattBox :=
  { WattBox.init "h" "u" "p" "" false with switches := [Switch.init 0 "a" false] }

/-- Witness for `C4_override`: requesting outlet 1 on while the reconciliation
response reports `outlet_status = "0"` still ends with local `isOn = true`. -/
theorem C4_override_witness :
    (exBoxC4.noop_set_state = false ∧
      findElem [("outlet_status", some "0")] "outlet_status" = some (some "0") ∧
      (pySplit "0").length = exBoxC4.switches.length ∧
      0 < exBoxC4.switches.length ∧
      ((pySplit "0").get? 0).map (fun v => v == "1") ≠ some true) ∧
    ((Switch.set_state exBoxC4 0 true (.ok (Xml.doc [("outlet_status", some "0")])) 5).2.2 =
        none ∧
      ∃ sw,
        (Switch.set_state exBoxC4 0 true
          (.ok (Xml.doc [("outlet_status", some "0")])) 5).1.switches.get? 0 = some sw ∧
        sw.is_on = true) :=
  ⟨⟨by decide, by decide, by decide, by decide, by decide⟩,
    C4_override exBoxC4 0 true [("outlet_status", some "0")] "0" 5
      (by decide) (by decide) (by decide) (by decide) (by decide)⟩

/-- C5: a connectivity failure on the command send is caught and logged;
`set_state` returns early, raising nothing and leaving the device state —
every outlet's `isOn` included — exactly at its pre-call value. The override
step is never reached. -/
theorem C5_send_failure_keeps_state (w : WattBox) (idx : Nat) (turn_on : Bool) (now : ℤ)
    (hnoop : w.noop_set_state = false) :
    Switch.set_state w idx turn_on (.error ()) now = (w, 1, none) := by
  simp [Switch.set_state, hnoop]

/-- Witness for `C5_send_failure_keeps_state` on a concrete one-outlet box. -/
theorem C5_send_failure_keeps_state_witness :
    exBoxC4.noop_set_state = false ∧
    Switch.set_state exBoxC4 0 true (.error ()) 5 = (exBoxC4, 1, none) :=
  ⟨by decide, C5_send_failure_keeps_state exBoxC4 0 true 5 (by decide)⟩

/-- A bodyless `WattBox._update` call issues at most one outbound request. -/
theorem update_requests_le_one (w : WattBox) (now : ℤ) (f : Except Unit Xml) (x : Option Xml) :
    (WattBox.update w now f x).2.1 ≤ 1 := by
  simp only [WattBox.update]
  repeat' split
  all_goals simp

/-- C6: if a bodyless refresh at time `t1` set `_last_updated = t1`, then a
second bodyless refresh at `t2` with `t2 - t1 < 3` returns immediately: no
request, no exception, no state change — so at most one outbound request is
issued across the pair. -/
theorem C6_debounce (w w1 : WattBox) (t1 t2 : ℤ) (f1 f2 : Except Unit Xml) (r1 : Nat)
    (e1 : Option PyErr)
    (h1 : WattBox.update w t1 f1 none = (w1, r1, e1))
    (h2 : w1.last_updated = some t1)
    (ht : t2 - t1 < 3) :
    r1 + (WattBox.update w1 t2 f2 none).2.1 ≤ 1 ∧
    WattBox.update w1 t2 f2 none = (w1, 0, none) := by
  have hsecond : WattBox.update w1 t2 f2 none = (w1, 0, none) := by
    simp only [WattBox.update, h2]
    rw [if_pos ht]
  have hr1 : r1 ≤ 1 := by
    have hle := update_requests_le_one w t1 f1 none
    rw [h1] at hle
    exact hle
  refine ⟨?_, hsecond⟩
  rw [hsecond]
  simpa using hr1

/-- Device state for the C6 witness: one outlet, last updated at time 0. -/
def exBoxC6 : WattBox :=
  { WattBox.init "h" "u" "p" "" false with
      switches := [Switch.init 0 "a" false]
      last_updated := some 0 }

/-- The state after the C6 witness's first refresh (fetch at t = 10). -/
def exBoxC6After : WattBox :=
  { exBoxC6 with switches := [Switch.init 0 "a" true], last_updated := some 10 }

/-- Witness for `C6_debounce`: a refresh at t=10 (one request) followed by a
refresh at t=11 (within the 3-second window: no request, no-op). -/
theorem C6_debounce_witness :
    (WattBox.update exBoxC6 10 (.ok (Xml.doc [("outlet_status", some "1")])) none =
        (exBoxC6After, 1, none) ∧
      exBoxC6After.last_updated = some 10 ∧
      (11 : ℤ) - 10 < 3) ∧
    (1 + (WattBox.update exBoxC6After 11 (.error ()) none).2.1 ≤ 1 ∧
      WattBox.update exBoxC6After 11 (.error ()) none = (exBoxC6After, 0, none)) :=
  ⟨⟨by decide, by decide, by decide⟩,
    C6_debounce exBoxC6 exBoxC6After 10 11 (.ok (Xml.doc [("outlet_status", some "1")]))
      (.error ()) 1 none (by decide) (by decide) (by decide)⟩

/-- C7: with `simulateOnly` (`_noop_set_state`) true, a bodyless refresh past
the debounce window skips the fetch (0 requests) but then falls through to
`ET.fromstring(xml_str)` with `xml_str` still `None`, raising `TypeError`
instead of returning as an informational no-op. Outlet state is unchanged. -/
theorem C7_noop_refresh_raises :
    WattBox.update { WattBox.init "h" "u" "p" "" true with last_updated := some 0 } 10
        (.ok (Xml.doc [])) none =
      ({ WattBox.init "h" "u" "p" "" true with last_updated := some 0 }, 0,
        some .typeError) := by
  decide

/-- Owner for the C8 input: noop device with one outlet, currently on. -/
def exBoxC8 : WattBox :=
  { WattBox.init "h" "u" "p" "" true with switches := [Switch.init 0 "a" true] }

/-- C8: with `simulateOnly` true, `set_state(False)` issues zero outbound
requests and does set the outlet's local `isOn` to false — but the call does
not complete normally: the final debug log reads the local `response`, which
the noop branch never assigned, raising `UnboundLocalError`. -/
theorem C8_noop_set_state_raises :
    Switch.set_state exBoxC8 0 false (.error ()) 5 =
      ({ exBoxC8 with switches := [Switch.init 0 "a" false] }, 0,
        some .unboundLocalError) ∧
    ((Switch.set_state exBoxC8 0 false (.error ()) 5).1.switches.get? 0).map Switch.is_on =
      some false := by
  decide

/-- C9: when `voltage_value` / `current_value` / `power_value` is present with
integer text `v`, a successful `parse` sets the corresponding field to
`v / 10`. -/
theorem C9_tenths (w : WattBox) (root : Root)
    (hsucc : (WattBox.parse w (Xml.doc root)).2 = none) :
    (∀ s v, findElem root "voltage_value" = some (some s) → pyInt? s = some v →
      (WattBox.parse w (Xml.doc root)).1.voltage = some ((v : ℚ) / 10)) ∧
    (∀ s v, findElem root "current_value" = some (some s) → pyInt? s = some v →
      (WattBox.parse w (Xml.doc root)).1.current = some ((v : ℚ) / 10)) ∧
    (∀ s v, findElem root "power_value" = some (some s) → pyInt? s = some v →
      (WattBox.parse w (Xml.doc root)).1.power = some ((v : ℚ) / 10)) := by
  rcases h1 : iElem root "voltage_value" with e1 | vv
  · simp [WattBox.parse, h1] at hsucc
  rcases h2 : iElem root "current_value" with e2 | cv
  · simp [WattBox.parse, h1, h2] at hsucc
  rcases h3 : iElem root "power_value" with e3 | pv
  · simp [WattBox.parse, h1, h2, h3] at hsucc
  rcases h4 : tElem root "outlet_name" with - | ns
  · simp [WattBox.parse, h1, h2, h3, h4] at hsucc
  rcases h5 : tElem root "outlet_status" with - | ss
  · simp [WattBox.parse, h1, h2, h3, h4, h5] at hsucc
  rw [parse_doc_ok w root vv cv pv ns ss h1 h2 h3 h4 h5]
  refine ⟨?_, ?_, ?_⟩ <;> intro s v hf hi
  · have hv2 : iElem root "voltage_value" = .ok (some ((v : ℚ) / 10)) := by
      simp [iElem, hf, hi]
    rw [h1] at hv2
    obtain rfl : vv = some ((v : ℚ) / 10) := by injection hv2
    rfl
  · have hv2 : iElem root "current_value" = .ok (some ((v : ℚ) / 10)) := by
      simp [iElem, hf, hi]
    rw [h2] at hv2
    obtain rfl : cv = some ((v : ℚ) / 10) := by injection hv2
    rfl
  · have hv2 : iElem root "power_value" = .ok (some ((v : ℚ) / 10)) := by
      simp [iElem, hf, hi]
    rw [h3] at hv2
    obtain rfl : pv = some ((v : ℚ) / 10) := by injection hv2
    rfl

/-- Status document for the C9 witness: raw tenths values 1200 / 105 / 600. -/
def exRootC9 : Root :=
  [("voltage_value", some "1200"), ("current_value", some "105"),
    ("power_value", some "600"), ("outlet_name", some "a"), ("outlet_status", some "1")]

/-- Witness for `C9_tenths`: `voltage_value = 1200` yields voltage `120`,
`current_value = 105` yields current `10.5`, `power_value = 600` yields power
`60` (the raw field divided by 10). -/
theorem C9_tenths_witness :
    ((WattBox.parse (WattBox.init "h" "u" "p" "" false) (Xml.doc exRootC9)).2 = none) ∧
    ((∀ s v, findElem exRootC9 "voltage_value" = some (some s) → pyInt? s = some v →
        (WattBox.parse (WattBox.init "h" "u" "p" "" false)
          (Xml.doc exRootC9)).1.voltage = some ((v : ℚ) / 10)) ∧
      (∀ s v, findElem exRootC9 "current_value" = some (some s) → pyInt? s = some v →
        (WattBox.parse (WattBox.init "h" "u" "p" "" false)
          (Xml.doc exRootC9)).1.current = some ((v : ℚ) / 10)) ∧
      (∀ s v, findElem exRootC9 "power_value" = some (some s) → pyInt? s = some v →
        (WattBox.parse (WattBox.init "h" "u" "p" "" false)
          (Xml.doc exRootC9)).1.power = some ((v : ℚ) / 10))) ∧
    (WattBox.parse (WattBox.init "h" "u" "p" "" false) (Xml.doc exRootC9)).1.voltage =
      some 120 :=
  ⟨by decide,
    C9_tenths (WattBox.init "h" "u" "p" "" false) exRootC9 (by decide),
    by
      have h : (WattBox.parse (WattBox.init "h" "u" "p" "" false) (Xml.doc exRootC9)).1.voltage =
          some (((1200 : ℤ) : ℚ) / 10) := rfl
      rw [h]
      norm_num⟩

/-- C10: a bodyless refresh on a device that has never completed a successful
full load (so `_last_updated` is still `None`) raises `TypeError` computing
`now - self._last_updated`, before any fetch or state change. -/
theorem C10_refresh_before_load_raises (w : WattBox) (now : ℤ) (f : Except Unit Xml)
    (h : w.last_updated = none) :
    WattBox.update w now f none = (w, 0, some .typeError) := by
  simp [WattBox.update, h]

/-- Witness for `C10_refresh_before_load_raises` on a freshly constructed
device. -/
theorem C10_refresh_before_load_raises_witness :
    (WattBox.init "h" "u" "p" "" false).last_updated = none ∧
    WattBox.update (WattBox.init "h" "u" "p" "" false) 5 (.error ()) none =
      (WattBox.init "h" "u" "p" "" false, 0, some .typeError) :=
  ⟨by decide,
    C10_refresh_before_load_raises (WattBox.init "h" "u" "p" "" false) 5 (.error ())
      (by decide)⟩
